import Mathlib

/-!
Verification development for the Cyber-Security-Evaluator repository.

Shallow embedding of the parts of the code base the checked properties
speak about:

* `src/scenarios/security/models.py` — outcome enum, test results,
  confusion matrix, metrics records;
* `src/scenarios/security/scoring_engine.py` — `ScoringEngine`;
* `src/scenarios/security/adaptive_planner.py` — `AdaptiveTestPlanner`;
* `src/scenarios/security/sql_injection_judge.py` — `SQLInjectionJudge`
  outcome computation and test-execution loop;
* `src/green_agents/cybersecurity_evaluator.py` — `PurpleAgentA2AProxy`
  detection call;
* `src/framework/reporting/purpleagent_reporter.py` — JSON report shape;
* `src/purple_agents/baseline/sql_detector.py` — `BaselineSQLDetector`.

Python floats are embedded as rationals (`ℚ`); machine `int` values that
are never negative are embedded as `ℕ`.  Fallible operations return
`Except`/`Option`.  External effects (the HTTP transport, the `json`
module, the `re` regex engine) are passed in as explicit oracles, so the
definitions stay executable and the control flow of the source is kept.
-/

namespace CyberSec

/-- Embedding of `DetectionOutcome` from `scenarios/security/models.py`. -/
inductive DetectionOutcome where
  | TRUE_POSITIVE
  | TRUE_NEGATIVE
  | FALSE_POSITIVE
  | FALSE_NEGATIVE
  deriving DecidableEq, Repr, Inhabited

/-- Embedding of `SQLInjectionJudge._determine_outcome` from
`scenarios/security/sql_injection_judge.py` (lines 587-605). -/
def determineOutcome (ground_truth predicted : Bool) : DetectionOutcome :=
  if ground_truth ∧ predicted then .TRUE_POSITIVE
  else if ¬ ground_truth ∧ ¬ predicted then .TRUE_NEGATIVE
  else if ¬ ground_truth ∧ predicted then .FALSE_POSITIVE
  else .FALSE_NEGATIVE

/-- Embedding of `TestResult.determine_outcome` field validator from
`scenarios/security/models.py` (lines 96-118), the branch that computes
the outcome from `ground_truth` and `predicted` when no outcome value is
supplied. -/
def modelsDetermineOutcome (ground_truth predicted : Bool) : DetectionOutcome :=
  if ground_truth ∧ predicted then .TRUE_POSITIVE
  else if ¬ ground_truth ∧ ¬ predicted then .TRUE_NEGATIVE
  else if ¬ ground_truth ∧ predicted then .FALSE_POSITIVE
  else .FALSE_NEGATIVE

/-- Embedding of `TestResult` from `scenarios/security/models.py`.  The optional
`execution_time_ms` and nested `purple_agent_response` payload carry no
information used by the scoring or planning code modelled here and are
elided. -/
structure TestResult where
  test_case_id : String
  ground_truth : Bool
  predicted : Bool
  outcome : DetectionOutcome
  category : String
  language : String
  confidence : ℚ := 1/2
  deriving DecidableEq, Repr, Inhabited

/-- Embedding of `ConfusionMatrix` from `scenarios/security/models.py`. -/
structure ConfusionMatrix where
  true_positives : ℕ := 0
  true_negatives : ℕ := 0
  false_positives : ℕ := 0
  false_negatives : ℕ := 0
  deriving DecidableEq, Repr, Inhabited

/-- The `ConfusionMatrix.total` property (models.py lines 133-136). -/
def ConfusionMatrix.total (c : ConfusionMatrix) : ℕ :=
  c.true_positives + c.true_negatives + c.false_positives + c.false_negatives

/-- Embedding of `EvaluationMetrics` from `scenarios/security/models.py`. -/
structure EvaluationMetrics where
  f1_score : ℚ := 0
  precision : ℚ := 0
  «recall» : ℚ := 0
  specificity : ℚ := 0
  accuracy : ℚ := 0
  false_positive_rate : ℚ := 0
  false_negative_rate : ℚ := 0
  confusion_matrix : ConfusionMatrix
  total_samples : ℕ := 0
  deriving DecidableEq, Repr, Inhabited

/-- Embedding of `ScoringEngine._build_confusion_matrix`
(`scenarios/security/scoring_engine.py`, lines 111-131). -/
def buildConfusionMatrix (results : List TestResult) : ConfusionMatrix :=
  { true_positives := (results.filter (fun r => r.outcome = .TRUE_POSITIVE)).length
    true_negatives := (results.filter (fun r => r.outcome = .TRUE_NEGATIVE)).length
    false_positives := (results.filter (fun r => r.outcome = .FALSE_POSITIVE)).length
    false_negatives := (results.filter (fun r => r.outcome = .FALSE_NEGATIVE)).length }

/-- Embedding of `ScoringEngine._calculate_precision` (scoring_engine.py lines 133-149). -/
def calculatePrecision (c : ConfusionMatrix) : ℚ :=
  if c.true_positives + c.false_positives = 0 then 0
  else (c.true_positives : ℚ) / ((c.true_positives : ℚ) + (c.false_positives : ℚ))

/-- Embedding of `ScoringEngine._calculate_recall` (scoring_engine.py lines 151-167). -/
def calculateRecall (c : ConfusionMatrix) : ℚ :=
  if c.true_positives + c.false_negatives = 0 then 0
  else (c.true_positives : ℚ) / ((c.true_positives : ℚ) + (c.false_negatives : ℚ))

/-- Embedding of `ScoringEngine._calculate_f1` (scoring_engine.py lines 169-186). -/
def calculateF1 (precision «recall» : ℚ) : ℚ :=
  if precision + «recall» = 0 then 0
  else 2 * (precision * «recall») / (precision + «recall»)

/-- Embedding of `ScoringEngine._calculate_specificity` (scoring_engine.py lines 188-204). -/
def calculateSpecificity (c : ConfusionMatrix) : ℚ :=
  if c.true_negatives + c.false_positives = 0 then 0
  else (c.true_negatives : ℚ) / ((c.true_negatives : ℚ) + (c.false_positives : ℚ))

/-- Embedding of `ScoringEngine._calculate_accuracy` (scoring_engine.py lines 206-221). -/
def calculateAccuracy (c : ConfusionMatrix) : ℚ :=
  if c.total = 0 then 0
  else ((c.true_positives : ℚ) + (c.true_negatives : ℚ)) / (c.total : ℚ)

/-- Embedding of `ScoringEngine._calculate_fpr` (scoring_engine.py lines 223-239). -/
def calculateFpr (c : ConfusionMatrix) : ℚ :=
  if c.false_positives + c.true_negatives = 0 then 0
  else (c.false_positives : ℚ) / ((c.false_positives : ℚ) + (c.true_negatives : ℚ))

/-- Embedding of `ScoringEngine._calculate_fnr` (scoring_engine.py lines 241-257). -/
def calculateFnr (c : ConfusionMatrix) : ℚ :=
  if c.false_negatives + c.true_positives = 0 then 0
  else (c.false_negatives : ℚ) / ((c.false_negatives : ℚ) + (c.true_positives : ℚ))

/-- Embedding of `ScoringEngine.calculate_metrics` (scoring_engine.py lines 36-74).
The Python code raises `ValueError` on an empty results list; the raise
is embedded as the `Except.error` branch. -/
def calculateMetrics (results : List TestResult) : Except String EvaluationMetrics :=
  if results = [] then
    .error "Cannot calculate metrics from empty results list"
  else
    let confusion := buildConfusionMatrix results
    let precision := calculatePrecision confusion
    let «recall» := calculateRecall confusion
    .ok
      { f1_score := calculateF1 precision «recall»
        precision := precision
        «recall» := «recall»
        specificity := calculateSpecificity confusion
        accuracy := calculateAccuracy confusion
        false_positive_rate := calculateFpr confusion
        false_negative_rate := calculateFnr confusion
        confusion_matrix := confusion
        total_samples := confusion.total }

/-- Embedding of `TestPhase` from `scenarios/security/models.py`. -/
inductive TestPhase where
  | EXPLORATION
  | EXPLOITATION
  | VALIDATION
  deriving DecidableEq, Repr, Inhabited

/-- Embedding of `PerformanceAnalysis` from `scenarios/security/models.py`.  The
free-form `confidence_analysis` dictionary is not consulted by any code
modelled here and is elided. -/
structure PerformanceAnalysis where
  overall_f1 : ℚ
  category_f1 : List (String × ℚ) := []
  weak_categories : List String := []
  strong_categories : List String := []
  performance_trend : String := "stable"
  deriving DecidableEq, Repr, Inhabited

/-- Embedding of `TestAllocation` from `scenarios/security/models.py`. -/
structure TestAllocation where
  category : String
  allocated_count : ℕ := 0
  reason : String
  deriving DecidableEq, Repr, Inhabited

/-- Embedding of `TestPlan` from `scenarios/security/models.py`. -/
structure TestPlan where
  phase : TestPhase
  allocations : List TestAllocation := []
  total_tests : ℕ := 0
  rationale : String
  deriving DecidableEq, Repr, Inhabited

/-- The constructor parameters of `AdaptiveTestPlanner`
(`scenarios/security/adaptive_planner.py`, lines 36-57), with the
default values of the source. -/
structure PlannerConfig where
  weak_threshold : ℚ := 3/5
  focus_percentage : ℚ := 3/5
  stability_threshold : ℚ := 1/20
  min_category_samples : ℕ := 5
  deriving DecidableEq, Repr, Inhabited

/-- Embedding of `AdaptiveTestPlanner._plan_exploration`
(`adaptive_planner.py`, lines 210-267).  The `_log_decision` call only
appends to the audit log and does not affect the returned plan. -/
def planExploration (cfg : PlannerConfig) (batch_size : ℕ)
    (all_categories : List String) : TestPlan :=
  if all_categories.length = 0 then
    { phase := .EXPLORATION
      allocations := []
      total_tests := 0
      rationale := "No categories available" }
  else
    let base_per_category := max cfg.min_category_samples (batch_size / all_categories.length)
    let allocations := all_categories.map (fun category =>
      { category := category
        allocated_count := base_per_category
        reason := "Exploration phase: diverse sampling" : TestAllocation })
    let total_allocated := (allocations.map (fun a => a.allocated_count)).sum
    { phase := .EXPLORATION
      allocations := allocations
      total_tests := total_allocated
      rationale := "Exploration: Distribute tests evenly across categories" }

/-- Embedding of `AdaptiveTestPlanner._plan_exploitation`
(`adaptive_planner.py`, lines 269-344).  `int(batch_size *
self.focus_percentage)` truncates the nonnegative float product, embedded
as the rational floor.  The `_log_decision` call does not affect the
returned plan. -/
def planExploitation (cfg : PlannerConfig) (batch_size : ℕ)
    (weak_categories all_categories : List String) : TestPlan :=
  if weak_categories = [] then
    planExploration cfg batch_size all_categories
  else
    let focus_count : ℕ := (⌊(batch_size : ℚ) * cfg.focus_percentage⌋).toNat
    let remaining_count : ℕ := batch_size - focus_count
    let per_weak_category := max cfg.min_category_samples (focus_count / weak_categories.length)
    let weakAllocations := weak_categories.map (fun category =>
      { category := category
        allocated_count := per_weak_category
        reason := "Weak category: focused testing" : TestAllocation })
    let other_categories := all_categories.filter (fun c => ! weak_categories.contains c)
    let otherAllocations :=
      if other_categories = [] then []
      else
        let per_other_category := max 1 (remaining_count / other_categories.length)
        other_categories.map (fun category =>
          { category := category
            allocated_count := per_other_category
            reason := "Non-weak category: maintenance testing" : TestAllocation })
    let allocations := weakAllocations ++ otherAllocations
    let total_allocated := (allocations.map (fun a => a.allocated_count)).sum
    { phase := .EXPLOITATION
      allocations := allocations
      total_tests := total_allocated
      rationale := "Exploitation: Focus tests on weak categories" }

/-- The `focus_count` computed by `_plan_exploitation`:
`int(batch_size * self.focus_percentage)`. -/
def exploitFocusCount (cfg : PlannerConfig) (batch_size : ℕ) : ℕ :=
  (⌊(batch_size : ℚ) * cfg.focus_percentage⌋).toNat

/-- The `per_weak_category` count computed by `_plan_exploitation`. -/
def exploitPerWeak (cfg : PlannerConfig) (batch_size : ℕ)
    (weak_categories : List String) : ℕ :=
  max cfg.min_category_samples (exploitFocusCount cfg batch_size / weak_categories.length)

/-- The `other_categories` list computed by `_plan_exploitation`. -/
def exploitOthers (weak_categories all_categories : List String) : List String :=
  all_categories.filter (fun c => ! weak_categories.contains c)

/-- The `per_other_category` count computed by `_plan_exploitation`. -/
def exploitPerOther (cfg : PlannerConfig) (batch_size : ℕ)
    (other_categories : List String) : ℕ :=
  max 1 ((batch_size - exploitFocusCount cfg batch_size) / other_categories.length)

/-- The allocation list built by `_plan_exploitation` when weak
categories are present. -/
def exploitAllocations (cfg : PlannerConfig) (batch_size : ℕ)
    (weak_categories all_categories : List String) : List TestAllocation :=
  weak_categories.map (fun category =>
    { category := category
      allocated_count := exploitPerWeak cfg batch_size weak_categories
      reason := "Weak category: focused testing" }) ++
  (if exploitOthers weak_categories all_categories = [] then []
   else (exploitOthers weak_categories all_categories).map (fun category =>
    { category := category
      allocated_count := exploitPerOther cfg batch_size
        (exploitOthers weak_categories all_categories)
      reason := "Non-weak category: maintenance testing" }))

/-- Embedding of `AdaptiveTestPlanner.should_terminate_early`
(`adaptive_planner.py`, lines 404-460).  The truthiness test
`if previous_performance:` on a pydantic model is `Option.isSome`; the
`_log_termination_decision` calls do not affect the returned value. -/
def shouldTerminateEarly (round_number max_rounds total_tests_executed test_budget : ℕ)
    (performance : PerformanceAnalysis)
    (previous_performance : Option PerformanceAnalysis) : Bool × String :=
  if max_rounds ≤ round_number then
    (true, "Maximum rounds reached")
  else if test_budget ≤ total_tests_executed then
    (true, "Test budget exhausted")
  else if previous_performance.isSome ∧
      (9 : ℚ)/10 ≤ performance.overall_f1 ∧
      performance.performance_trend = "stable" ∧
      performance.weak_categories = [] then
    (true, "Excellent performance (F1 >= 0.9) achieved and stable with no weak categories")
  else if 3 ≤ round_number ∧
      performance.weak_categories = [] ∧
      performance.performance_trend = "stable" then
    (true, "No weak categories and performance stable after multiple rounds")
  else
    (false, "Continue testing: more rounds needed")

/-- Embedding of `CodeSample` from `scenarios/security/models.py`.  Optional
annotation fields (`severity`, `cwe_id`, `description`, `remediation`)
and the metadata dictionary are not consulted by the execution loop and
are elided. -/
structure CodeSample where
  id : String
  category : String
  language : String
  code : String
  is_vulnerable : Bool
  deriving DecidableEq, Repr, Inhabited

/-- Embedding of `PurpleAgentResponse` from `scenarios/security/models.py`, the fields
consulted by `SQLInjectionJudge._execute_tests`; the remaining optional
annotation fields are elided. -/
structure PurpleAgentResponse where
  test_case_id : String
  is_vulnerable : Bool
  confidence : ℚ := 1/2
  execution_time_ms : Option ℚ := none
  deriving DecidableEq, Repr, Inhabited

/-- The body of the per-sample loop of `SQLInjectionJudge._execute_tests`
(`sql_injection_judge.py`, lines 492-537).  The HTTP call
`_call_purple_agent` is passed in as an oracle; `none` stands for the
call raising an exception (the `except` branch of the loop). -/
def executeTestOne (callPurpleAgent : CodeSample → Option PurpleAgentResponse)
    (sample : CodeSample) : TestResult :=
  match callPurpleAgent sample with
  | some purple_response =>
    { test_case_id := sample.id
      ground_truth := sample.is_vulnerable
      predicted := purple_response.is_vulnerable
      outcome := determineOutcome sample.is_vulnerable purple_response.is_vulnerable
      category := sample.category
      language := sample.language
      confidence := purple_response.confidence }
  | none =>
    { test_case_id := sample.id
      ground_truth := sample.is_vulnerable
      predicted := false
      outcome := if sample.is_vulnerable then .FALSE_NEGATIVE else .TRUE_NEGATIVE
      category := sample.category
      language := sample.language
      confidence := 0 }

/-- Embedding of `SQLInjectionJudge._execute_tests` (`sql_injection_judge.py`, lines
470-539): one `TestResult` is appended per sample, in iteration order;
the periodic `updater.update` progress call does not touch `results`. -/
def executeTests (callPurpleAgent : CodeSample → Option PurpleAgentResponse)
    (test_samples : List CodeSample) : List TestResult :=
  test_samples.map (executeTestOne callPurpleAgent)

/-- Embedding of `Attack` from `framework/models.py`, as consumed by
`PurpleAgentA2AProxy._detect_async`
(`green_agents/cybersecurity_evaluator.py`): the fields read there are
`payload`, `attack_id`, `technique`, `scenario`, `metadata` and (through
`calculate_outcome`) the ground-truth flag `is_malicious`. -/
structure Attack where
  attack_id : String
  scenario : String
  technique : String
  payload : String
  is_malicious : Bool
  deriving DecidableEq, Repr, Inhabited

/-- Modelled from the spec: `calculate_outcome` lives in
`framework/models.py`, which is not among the sources.  Spec §3 defines
the outcome of a test from the ground truth and the decision:
`detected ∧ is_malicious ⇒ TP`; `detected ∧ ¬is_malicious ⇒ FP`;
`¬detected ∧ is_malicious ⇒ FN`; `¬detected ∧ ¬is_malicious ⇒ TN`. -/
def calculateOutcome (attack : Attack) (detected : Bool) : DetectionOutcome :=
  if detected ∧ attack.is_malicious then .TRUE_POSITIVE
  else if detected ∧ ¬ attack.is_malicious then .FALSE_POSITIVE
  else if ¬ detected ∧ attack.is_malicious then .FALSE_NEGATIVE
  else .TRUE_NEGATIVE

/-- One entry of the `parts` array of an A2A response; a part dictionary
may or may not carry a `text` key. -/
structure A2APart where
  text : Option String := none
  deriving DecidableEq, Repr, Inhabited

/-- Result of the HTTP POST in `PurpleAgentA2AProxy._detect_async`:
either the client raised (network error), or a JSON body came back with
a status code and an optional `parts` array. -/
inductive A2AHttpResult where
  | failure (err : String)
  | response (status : ℕ) (parts : Option (List A2APart))
  deriving DecidableEq, Repr, Inhabited

/-- The keys of the purple agent `CommandResponse` JSON consulted by
`_detect_async`: `success` and `action_taken`, each possibly absent. -/
structure ResultData where
  success : Option Bool := none
  action_taken : Option String := none
  deriving DecidableEq, Repr, Inhabited

/-- The `parts` scan of `_detect_async`
(`cybersecurity_evaluator.py`, lines 191-196): `response_text` starts
empty and becomes the `text` of the first part that has one. -/
def extractResponseText (parts : Option (List A2APart)) : String :=
  match parts with
  | none => ""
  | some ps =>
    match ps.filterMap (fun p => p.text) with
    | [] => ""
    | t :: _ => t

/-- Embedding of `TestResult` from `framework/models.py`, as constructed by
`PurpleAgentA2AProxy._detect_async`; the metadata dictionary and the
timestamp are elided. -/
structure FrameworkTestResult where
  result_id : String
  attack_id : String
  purple_agent : String
  detected : Bool
  confidence : ℚ
  detection_reason : String
  outcome : DetectionOutcome
  deriving DecidableEq, Repr, Inhabited

/-- Embedding of `PurpleAgentA2AProxy._detect_async`
(`green_agents/cybersecurity_evaluator.py`, lines 141-265).
`parseJson` is the `json.loads` oracle restricted to the two keys the
code reads (`none` = `json.JSONDecodeError`).  A non-200 status raises
inside the `try` block and is handled, together with transport errors,
by the `except` branch, which returns a `detected = False` error
result. -/
def detectAsync (parseJson : String → Option ResultData) (endpoint : String)
    (attack : Attack) (httpResult : A2AHttpResult) : FrameworkTestResult :=
  let purpleAgentName := "PurpleAgent@" ++ endpoint
  let errorResult : FrameworkTestResult :=
    { result_id := "result_" ++ attack.attack_id ++ "_error"
      attack_id := attack.attack_id
      purple_agent := purpleAgentName
      detected := false
      confidence := 0
      detection_reason := "A2A call failed"
      outcome := calculateOutcome attack false }
  match httpResult with
  | .failure _ => errorResult
  | .response status parts =>
    if status ≠ 200 then errorResult
    else
      let response_text := extractResponseText parts
      match parseJson response_text with
      | some result_data =>
        let success := result_data.success.getD false
        let action_taken := result_data.action_taken.getD ""
        let detected := ! success
        let confidence : ℚ := if result_data.action_taken.isSome then 9/10 else 1/2
        let detection_reason :=
          if action_taken ≠ "" then "Action: " ++ action_taken else "No action taken"
        { result_id := "result_" ++ attack.attack_id
          attack_id := attack.attack_id
          purple_agent := purpleAgentName
          detected := detected
          confidence := confidence
          detection_reason := detection_reason
          outcome := calculateOutcome attack detected }
      | none =>
        { result_id := "result_" ++ attack.attack_id
          attack_id := attack.attack_id
          purple_agent := purpleAgentName
          detected := true
          confidence := 1/2
          detection_reason := "Unable to parse response - assuming blocked"
          outcome := calculateOutcome attack true }

/-- Embedding of `Vulnerability` from `framework/models.py`, with the fields read by
`PurpleAgentReporter` (`framework/reporting/purpleagent_reporter.py`). -/
structure Vulnerability where
  vulnerability_id : String
  cvss_score : ℚ
  severity : String
  cwe_id : String
  cwe_name : String
  description : String
  remediation : String
  proof_of_concept : String := ""
  deriving DecidableEq, Repr, Inhabited

/-- Embedding of `PurpleAgentAssessment` from `framework/models.py`, with the fields
read by `PurpleAgentReporter`.  The `assessment_date` datetime is
embedded by its `isoformat()` string. -/
structure PurpleAgentAssessment where
  purple_agent_name : String
  assessment_date_iso : String
  security_score : ℚ
  security_grade : String
  risk_level : String
  total_vulnerabilities : ℕ
  critical_count : ℕ
  high_count : ℕ
  medium_count : ℕ
  low_count : ℕ
  average_cvss_score : ℚ
  max_cvss_score : ℚ
  attack_success_rate : ℚ
  defense_success_rate : ℚ
  total_tests : ℕ
  estimated_fix_time_hours : ℚ
  priority_fixes : List String
  vulnerabilities : List Vulnerability
  deriving DecidableEq, Repr, Inhabited

/-- Embedding of `DualEvaluationResult` from `framework/models.py`, with the fields
read by `PurpleAgentReporter.generate_json_report`. -/
structure DualEvaluationResult where
  evaluation_id : String
  scenario : String
  total_time_seconds : ℚ
  purple_agent_assessment : PurpleAgentAssessment
  deriving DecidableEq, Repr, Inhabited

/-- JSON values, for the dictionary returned by
`generate_json_report`.  An object keeps its key/value pairs in
insertion order, as a Python dict does. -/
inductive Json where
  | str (s : String)
  | num (q : ℚ)
  | nat (n : ℕ)
  | arr (items : List Json)
  | obj (fields : List (String × Json))
  deriving Inhabited

/-- The keys of a JSON object, in insertion order. -/
def Json.keyList : Json → List String
  | .obj fields => fields.map (fun f => f.1)
  | _ => []

/-- Look a key up in a JSON object. -/
def Json.lookupKey (j : Json) (key : String) : Option Json :=
  match j with
  | .obj fields => fields.lookup key
  | _ => none

/-- One element of the `vulnerabilities` array of
`PurpleAgentReporter.generate_json_report`
(`purpleagent_reporter.py`, lines 261-273). -/
def vulnerabilityJsonEntry (vuln : Vulnerability) : Json :=
  .obj
    [("id", .str vuln.vulnerability_id),
     ("cvss_score", .num vuln.cvss_score),
     ("severity", .str vuln.severity),
     ("cwe_id", .str vuln.cwe_id),
     ("cwe_name", .str vuln.cwe_name),
     ("description", .str vuln.description),
     ("remediation", .str vuln.remediation)]

/-- Embedding of `PurpleAgentReporter.generate_json_report`
(`framework/reporting/purpleagent_reporter.py`, lines 214-274).
`sorted(..., key=lambda v: v.cvss_score, reverse=True)` is the stable
descending sort by CVSS score. -/
def generateJsonReport (dual_result : DualEvaluationResult) : Json :=
  let assessment := dual_result.purple_agent_assessment
  .obj
    [("report_type", .str "purple_agent_security_assessment"),
     ("evaluation_id", .str dual_result.evaluation_id),
     ("purple_agent", .str assessment.purple_agent_name),
     ("scenario", .str dual_result.scenario),
     ("timestamp", .str assessment.assessment_date_iso),
     ("duration_seconds", .num dual_result.total_time_seconds),
     ("security_summary", .obj
       [("security_score", .num assessment.security_score),
        ("security_grade", .str assessment.security_grade),
        ("risk_level", .str assessment.risk_level),
        ("total_vulnerabilities", .nat assessment.total_vulnerabilities)]),
     ("vulnerability_breakdown", .obj
       [("critical", .nat assessment.critical_count),
        ("high", .nat assessment.high_count),
        ("medium", .nat assessment.medium_count),
        ("low", .nat assessment.low_count),
        ("average_cvss", .num assessment.average_cvss_score),
        ("max_cvss", .num assessment.max_cvss_score)]),
     ("defense_metrics", .obj
       [("attack_success_rate", .num assessment.attack_success_rate),
        ("defense_success_rate", .num assessment.defense_success_rate),
        ("total_tests", .nat assessment.total_tests)]),
     ("remediation", .obj
       [("estimated_hours", .num assessment.estimated_fix_time_hours),
        ("priority_fixes", .arr (assessment.priority_fixes.map (fun f => .str f)))]),
     ("vulnerabilities", .arr
       ((assessment.vulnerabilities.mergeSort
           (fun a b => decide (b.cvss_score ≤ a.cvss_score))).map
         vulnerabilityJsonEntry))]

/-- Embedding of `BaselineSQLDetector.PYTHON_VULNERABLE_PATTERNS`
(`purple_agents/baseline/sql_detector.py`, lines 66-96): regex pattern,
description, severity.  Pattern strings are kept verbatim (with `\x27`,
`\x7b`, `\x7d`, `\x60` escapes for quote, brace and backtick
characters); the regex engine itself is external (`re` module) and is
passed to `analyze` as an oracle. -/
def PYTHON_VULNERABLE_PATTERNS : List (String × String × String) :=
  [("f[\"\\\x27].*SELECT.*\\\x7b.*\\\x7d", "f-string SQL interpolation", "critical"),
   ("f[\"\\\x27].*INSERT.*\\\x7b.*\\\x7d", "f-string SQL interpolation", "critical"),
   ("f[\"\\\x27].*UPDATE.*\\\x7b.*\\\x7d", "f-string SQL interpolation", "critical"),
   ("f[\"\\\x27].*DELETE.*\\\x7b.*\\\x7d", "f-string SQL interpolation", "critical"),
   ("[\"\\\x27].*SELECT.*[\"\\\x27]\\s*\\+\\s*\\w+", "String concatenation in SQL", "critical"),
   ("[\"\\\x27].*INSERT.*[\"\\\x27]\\s*\\+\\s*\\w+", "String concatenation in SQL", "critical"),
   ("[\"\\\x27].*UPDATE.*[\"\\\x27]\\s*\\+\\s*\\w+", "String concatenation in SQL", "critical"),
   ("[\"\\\x27].*DELETE.*[\"\\\x27]\\s*\\+\\s*\\w+", "String concatenation in SQL", "critical"),
   ("[\"\\\x27].*SELECT.*[\"\\\x27].*%\\s*\\(", "% formatting in SQL", "critical"),
   ("[\"\\\x27].*SELECT.*[\"\\\x27].*%\\s*\\w+", "% formatting in SQL", "critical"),
   ("[\"\\\x27].*SELECT.*[\"\\\x27]\\s*\\.format\\(", ".format() in SQL", "critical"),
   ("\\.execute\\s*\\(\\s*f[\"\\\x27]", "execute() with f-string", "critical"),
   ("\\.execute\\s*\\(\\s*[\"\\\x27].*[\"\\\x27]\\s*\\+", "execute() with concatenation", "critical"),
   ("\\.extra\\s*\\(.*where\\s*=\\s*\\[.*f[\"\\\x27]", "Django .extra() with f-string", "high"),
   ("\\.raw\\s*\\(.*f[\"\\\x27]", "Django .raw() with f-string", "high"),
   ("\\$where.*f[\"\\\x27]", "MongoDB $where with f-string", "critical")]

/-- Embedding of `BaselineSQLDetector.JAVASCRIPT_VULNERABLE_PATTERNS`
(`sql_detector.py`, lines 98-110). -/
def JAVASCRIPT_VULNERABLE_PATTERNS : List (String × String × String) :=
  [("\x60.*SELECT.*\\$\\\x7b.*\\\x7d\x60", "Template literal SQL interpolation", "critical"),
   ("\x60.*INSERT.*\\$\\\x7b.*\\\x7d\x60", "Template literal SQL interpolation", "critical"),
   ("[\"\\\x27].*SELECT.*[\"\\\x27]\\s*\\+\\s*\\w+", "String concatenation in SQL", "critical"),
   ("[\"\\\x27].*INSERT.*[\"\\\x27]\\s*\\+\\s*\\w+", "String concatenation in SQL", "critical"),
   ("\\.query\\s*\\(\\s*[\"\\\x27].*[\"\\\x27]\\s*\\+", "query() with concatenation", "critical"),
   ("\\.execute\\s*\\(\\s*\x60", "execute() with template literal", "critical")]

/-- Embedding of `BaselineSQLDetector.JAVA_VULNERABLE_PATTERNS`
(`sql_detector.py`, lines 112-120). -/
def JAVA_VULNERABLE_PATTERNS : List (String × String × String) :=
  [("[\"\\\x27].*SELECT.*[\"\\\x27]\\s*\\+\\s*\\w+", "String concatenation in SQL", "critical"),
   ("Statement.*executeQuery\\s*\\(.*\\+", "executeQuery with concatenation", "critical"),
   ("createQuery\\s*\\(.*\\+", "createQuery with concatenation", "high"),
   ("String\\.format\\s*\\([\"\\\x27].*SELECT", "String.format in SQL", "critical")]

/-- Embedding of `BaselineSQLDetector.PHP_VULNERABLE_PATTERNS`
(`sql_detector.py`, lines 122-132). -/
def PHP_VULNERABLE_PATTERNS : List (String × String × String) :=
  [("\".*SELECT.*\\$\\w+\"", "Variable interpolation in SQL", "critical"),
   ("\".*INSERT.*\\$\\w+\"", "Variable interpolation in SQL", "critical"),
   ("[\"\\\x27].*SELECT.*[\"\\\x27]\\s*\\.\\s*\\$", "String concatenation in SQL", "critical"),
   ("mysql_query\\s*\\(.*\\$\\w+", "mysql_query with variable", "critical")]

/-- Embedding of `BaselineSQLDetector.PYTHON_SAFE_PATTERNS`
(`sql_detector.py`, lines 135-142). -/
def PYTHON_SAFE_PATTERNS : List String :=
  ["\\.execute\\s*\\([\"\\\x27].*\\?.*[\"\\\x27],\\s*\\(",
   "\\.execute\\s*\\([\"\\\x27].*%s.*[\"\\\x27],\\s*\\(",
   "\\.execute\\s*\\([\"\\\x27].*:[\\w]+.*[\"\\\x27]",
   "\\.filter\\s*\\(",
   "\\.objects\\.filter",
   "\\.find_one\\s*\\(\\s*\\\x7b[\"\\\x27]"]

/-- The `re` module as used by `BaselineSQLDetector`:
`finditer pattern code` is the list of start offsets of the
non-overlapping matches found with `re.IGNORECASE | re.MULTILINE`, in
scan order.  `re.search` succeeds exactly when `finditer` is
non-empty. -/
structure RegexEngine where
  finditer : String → String → List ℕ

/-- The call `re.search(pattern, code, re.IGNORECASE | re.MULTILINE)` viewed
through the oracle. -/
def RegexEngine.search (eng : RegexEngine) (pattern code : String) : Bool :=
  !(eng.finditer pattern code).isEmpty

/-- The mapping `self.patterns_by_language` built in `BaselineSQLDetector.__init__`
(`sql_detector.py`, lines 144-151), with `.get(language, [])`. -/
def patternsByLanguage (language : String) : List (String × String × String) :=
  if language = "python" then PYTHON_VULNERABLE_PATTERNS
  else if language = "javascript" then JAVASCRIPT_VULNERABLE_PATTERNS
  else if language = "java" then JAVA_VULNERABLE_PATTERNS
  else if language = "php" then PHP_VULNERABLE_PATTERNS
  else []

/-- Python `str.lower()`.  (`String.toLower` is definitionally opaque
to the kernel through `String.mapAux`; the equivalent per-character
form over the character list is used so that concrete language names
evaluate.) -/
def pyLower (s : String) : String := ⟨s.data.map Char.toLower⟩

/-- Embedding of `DetectionResponse` from `sql_detector.py`, with the fields the
checked properties speak about.  The free-text `explanation`, the
deduplicated `detected_patterns` list and the `line_numbers` list are
built with Python `set()` (whose iteration order is unspecified) and
are elided. -/
structure DetectionResponse where
  test_case_id : String
  is_vulnerable : Bool
  confidence : ℚ := 1/2
  vulnerability_type : Option String := none
  severity : Option String := none
  deriving DecidableEq, Repr, Inhabited

/-- The `max_severity` update inside the match loop of
`BaselineSQLDetector.analyze` (`sql_detector.py`, lines 197-201). -/
def updateMaxSeverity (max_severity severity : String) : String :=
  if severity = "critical" then "critical"
  else if severity = "high" ∧ max_severity ≠ "critical" then "high"
  else max_severity

/-- Embedding of `BaselineSQLDetector.analyze` (`sql_detector.py`, lines 153-228).
The nested loops over `re.finditer` are embedded as the flat list of
per-match severities in scan order: `detected_vulnerabilities` has one
entry per match, so its Python `len` is the length of that list. -/
def analyze (eng : RegexEngine) (test_case_id code language : String)
    (_category : Option String) : DetectionResponse :=
  let language := pyLower language
  if language = "python" ∧ PYTHON_SAFE_PATTERNS.any (fun p => eng.search p code) then
    { test_case_id := test_case_id
      is_vulnerable := false
      confidence := 4/5 }
  else
    let patterns := patternsByLanguage language
    let matchSeverities : List String :=
      patterns.flatMap (fun pds => (eng.finditer pds.1 code).map (fun _ => pds.2.2))
    let max_severity := matchSeverities.foldl updateMaxSeverity "low"
    if matchSeverities ≠ [] then
      { test_case_id := test_case_id
        is_vulnerable := true
        confidence := min (19/20) (7/10 + (matchSeverities.length : ℚ) * (1/20))
        vulnerability_type := some "SQL Injection"
        severity := some max_severity }
    else
      { test_case_id := test_case_id
        is_vulnerable := false
        confidence := 3/5 }

/-! ### Concrete fixtures used by witnesses and counterexamples -/

/-- A true-positive test result (vulnerable sample, detected). -/
def resultTP : TestResult :=
  { test_case_id := "1"
    ground_truth := true
    predicted := true
    outcome := .TRUE_POSITIVE
    category := "classic_sqli"
    language := "python"
    confidence := 9/10 }

/-- A false-positive test result (secure sample, flagged). -/
def resultFP : TestResult :=
  { test_case_id := "2"
    ground_truth := false
    predicted := true
    outcome := .FALSE_POSITIVE
    category := "classic_sqli"
    language := "python"
    confidence := 7/10 }

/-- The metrics record `calculate_metrics` yields on the one-element
result list `[resultTP]`. -/
def metricsForSingleTP : EvaluationMetrics :=
  (calculateMetrics [resultTP]).toOption.getD default

/-- The early-termination condition in the words of claim C6: stop
exactly when (a) the round number has reached the maximum rounds, or
(b) the tests executed have reached the test budget, or (c) overall
F1 ≥ 0.90 with no weak categories and a stable performance trend, or
(d) the round number is at least 3 with no weak categories and a
stable performance trend.  Kept separate from `shouldTerminateEarly`
(the embedding of the source) so that the two can be compared. -/
def claimedTerminationCondition
    (round_number max_rounds total_tests_executed test_budget : ℕ)
    (performance : PerformanceAnalysis) : Prop :=
  max_rounds ≤ round_number ∨
  test_budget ≤ total_tests_executed ∨
  ((9 : ℚ)/10 ≤ performance.overall_f1 ∧
    performance.weak_categories = [] ∧
    performance.performance_trend = "stable") ∨
  (3 ≤ round_number ∧
    performance.weak_categories = [] ∧
    performance.performance_trend = "stable")

/-- Performance analysis with excellent stable F1 and no weak
categories. -/
def perfExcellentStable : PerformanceAnalysis :=
  { overall_f1 := 19/20
    weak_categories := []
    performance_trend := "stable" }

/-- A malicious attack fixture. -/
def promptAttack : Attack :=
  { attack_id := "atk_1"
    scenario := "prompt_injection"
    technique := "T1059"
    payload := "ignore previous instructions"
    is_malicious := true }

/-- A response body whose JSON carries `success = true` and an
`action_taken` key. -/
def okBody : String :=
  "\x7b\x22success\x22: true, \x22action_taken\x22: \x22executed\x22\x7d"

/-- A `json.loads` oracle that accepts exactly `okBody`. -/
def parseOracle : String → Option ResultData :=
  fun s =>
    if s = okBody then
      some { success := some true, action_taken := some "executed" }
    else
      none

/-- A vulnerability fixture for the report-shape checks. -/
def exampleVuln : Vulnerability :=
  { vulnerability_id := "VULN-001"
    cvss_score := 87/10
    severity := "High"
    cwe_id := "CWE-77"
    cwe_name := "Command Injection"
    description := "Prompt injection succeeded"
    remediation := "Add input filtering" }

/-- An assessment fixture with a single vulnerability. -/
def exampleAssessment : PurpleAgentAssessment :=
  { purple_agent_name := "baseline"
    assessment_date_iso := "2026-01-01T00:00:00"
    security_score := 55
    security_grade := "D"
    risk_level := "MEDIUM"
    total_vulnerabilities := 1
    critical_count := 0
    high_count := 1
    medium_count := 0
    low_count := 0
    average_cvss_score := 87/10
    max_cvss_score := 87/10
    attack_success_rate := 50
    defense_success_rate := 50
    total_tests := 2
    estimated_fix_time_hours := 1
    priority_fixes := ["VULN-001"]
    vulnerabilities := [exampleVuln] }

/-- A dual-evaluation-result fixture. -/
def exampleDual : DualEvaluationResult :=
  { evaluation_id := "eval_1"
    scenario := "prompt_injection"
    total_time_seconds := 12
    purple_agent_assessment := exampleAssessment }

/-- A vulnerable code sample fixture. -/
def sampleVulnerable : CodeSample :=
  { id := "s1"
    category := "classic_sqli"
    language := "python"
    code := "cursor.execute(f\x22SELECT * FROM users WHERE id=\x7buser_id\x7d\x22)"
    is_vulnerable := true }

/-- A secure code sample fixture. -/
def sampleSecure : CodeSample :=
  { id := "s2"
    category := "classic_sqli"
    language := "python"
    code := "cursor.execute(\x22SELECT * FROM users WHERE id=?\x22, (user_id,))"
    is_vulnerable := false }

/-- A purple-agent call oracle that answers on `sampleVulnerable` and
raises (returns `none`) on everything else. -/
def callAnswersFirst : CodeSample → Option PurpleAgentResponse :=
  fun sample =>
    if sample.id = "s1" then
      some { test_case_id := "s1", is_vulnerable := true, confidence := 17/20 }
    else
      none

/-- A regex-engine oracle under which every pattern finds exactly one
match at offset 0. -/
def engMatchAll : RegexEngine :=
  { finditer := fun _ _ => [0] }

/-! ### Helper lemmas -/

/-- The four outcome counts of the confusion matrix partition the
result list. -/
theorem buildConfusionMatrix_total_eq_length (results : List TestResult) :
    (buildConfusionMatrix results).total = results.length := by
  induction results with
  | nil => rfl
  | cons r rs ih =>
    simp only [buildConfusionMatrix, ConfusionMatrix.total, List.length_cons] at ih ⊢
    rcases h : r.outcome <;> simp [List.filter_cons, h] <;> omega

/-! ### Claims -/

/-- C1: for every test, the recorded outcome is determined from the
ground truth and the detector decision by: both true gives
TRUE_POSITIVE, detected but not malicious gives FALSE_POSITIVE, not
detected but malicious gives FALSE_NEGATIVE, and neither gives
TRUE_NEGATIVE — for `SQLInjectionJudge._determine_outcome` and for the
`TestResult.determine_outcome` validator alike. -/
theorem C1_outcome_truth_table :
    determineOutcome true true = .TRUE_POSITIVE ∧
    determineOutcome false true = .FALSE_POSITIVE ∧
    determineOutcome true false = .FALSE_NEGATIVE ∧
    determineOutcome false false = .TRUE_NEGATIVE ∧
    (∀ ground_truth predicted : Bool,
      modelsDetermineOutcome ground_truth predicted =
        determineOutcome ground_truth predicted) := by
  decide

/-- C4 counterexample: calling the scoring engine on an empty list of
test results does not yield all-zero metrics — `calculate_metrics`
raises `ValueError` (the `Except.error` branch) on the empty list. -/
theorem C4_counterexample :
    calculateMetrics [] = .error "Cannot calculate metrics from empty results list" := rfl

/-- C4 (amended): calling the scoring engine on an empty list of test
results raises a `ValueError` (per the documented contract of
`calculate_metrics`) instead of yielding metrics; metrics are produced
for non-empty input. -/
theorem C4_empty_results_rejected :
    calculateMetrics [] = .error "Cannot calculate metrics from empty results list" ∧
    ∃ m : EvaluationMetrics, calculateMetrics [resultTP] = .ok m := by
  refine ⟨rfl, ?_⟩
  unfold calculateMetrics
  rw [if_neg (by simp)]
  exact ⟨_, rfl⟩

/-- C5: for every list of test results, the confusion matrix built from
it satisfies TP + TN + FP + FN = number of results, and the
`total_samples` reported by `calculate_metrics` equals that sum. -/
theorem C5_confusion_partition (results : List TestResult) :
    (buildConfusionMatrix results).total = results.length ∧
    (∀ m : EvaluationMetrics, calculateMetrics results = .ok m →
      m.total_samples = results.length) := by
  refine ⟨buildConfusionMatrix_total_eq_length results, ?_⟩
  intro m hm
  unfold calculateMetrics at hm
  split at hm
  · exact absurd hm (by simp)
  · cases hm
    exact buildConfusionMatrix_total_eq_length results

/-- C5 witness: the partition property evaluated on the concrete
one-element result list `[resultTP]`. -/
theorem C5_confusion_partition_witness :
    metricsForSingleTP.total_samples = [resultTP].length :=
  (C5_confusion_partition [resultTP]).2 metricsForSingleTP rfl

/-- Precision is nonnegative. -/
theorem calculatePrecision_nonneg (c : ConfusionMatrix) : 0 ≤ calculatePrecision c := by
  unfold calculatePrecision
  split
  · exact le_refl 0
  · positivity

/-- Precision is at most one. -/
theorem calculatePrecision_le_one (c : ConfusionMatrix) : calculatePrecision c ≤ 1 := by
  unfold calculatePrecision
  split
  · norm_num
  · rename_i h
    have h0 : 0 < c.true_positives + c.false_positives := Nat.pos_of_ne_zero h
    have h1 : (0 : ℚ) < (c.true_positives : ℚ) + (c.false_positives : ℚ) := by
      exact_mod_cast h0
    rw [div_le_one h1]
    exact le_add_of_nonneg_right (by positivity)

/-- Recall is nonnegative. -/
theorem calculateRecall_nonneg (c : ConfusionMatrix) : 0 ≤ calculateRecall c := by
  unfold calculateRecall
  split
  · exact le_refl 0
  · positivity

/-- Recall is at most one. -/
theorem calculateRecall_le_one (c : ConfusionMatrix) : calculateRecall c ≤ 1 := by
  unfold calculateRecall
  split
  · norm_num
  · rename_i h
    have h0 : 0 < c.true_positives + c.false_negatives := Nat.pos_of_ne_zero h
    have h1 : (0 : ℚ) < (c.true_positives : ℚ) + (c.false_negatives : ℚ) := by
      exact_mod_cast h0
    rw [div_le_one h1]
    exact le_add_of_nonneg_right (by positivity)

/-- With a positive TP count, precision is strictly positive. -/
theorem calculatePrecision_pos (c : ConfusionMatrix) (h : c.true_positives ≠ 0) :
    0 < calculatePrecision c := by
  unfold calculatePrecision
  rw [if_neg (by omega)]
  have h1 : (0 : ℚ) < (c.true_positives : ℚ) + (c.false_positives : ℚ) := by
    have h0 : 0 < c.true_positives + c.false_positives := by omega
    exact_mod_cast h0
  exact div_pos (by exact_mod_cast Nat.pos_of_ne_zero h) h1

/-- With a positive TP count, recall is strictly positive. -/
theorem calculateRecall_pos (c : ConfusionMatrix) (h : c.true_positives ≠ 0) :
    0 < calculateRecall c := by
  unfold calculateRecall
  rw [if_neg (by omega)]
  have h1 : (0 : ℚ) < (c.true_positives : ℚ) + (c.false_negatives : ℚ) := by
    have h0 : 0 < c.true_positives + c.false_negatives := by omega
    exact_mod_cast h0
  exact div_pos (by exact_mod_cast Nat.pos_of_ne_zero h) h1

/-- The F1 score of a confusion matrix vanishes exactly when the TP
count does. -/
theorem calculateF1_zero_iff (c : ConfusionMatrix) :
    calculateF1 (calculatePrecision c) (calculateRecall c) = 0 ↔
      c.true_positives = 0 := by
  constructor
  · intro h
    by_contra htp
    have hp : 0 < calculatePrecision c := calculatePrecision_pos c htp
    have hr : 0 < calculateRecall c := calculateRecall_pos c htp
    unfold calculateF1 at h
    rw [if_neg (by nlinarith)] at h
    have hpos : 0 < 2 * (calculatePrecision c * calculateRecall c) /
        (calculatePrecision c + calculateRecall c) :=
      div_pos (by nlinarith) (by nlinarith)
    linarith
  · intro h
    have hp : calculatePrecision c = 0 := by
      unfold calculatePrecision
      split
      · rfl
      · rw [h]
        simp
    have hr : calculateRecall c = 0 := by
      unfold calculateRecall
      split
      · rfl
      · rw [h]
        simp
    unfold calculateF1
    rw [hp, hr]
    norm_num

/-- C3: for every non-empty list of test results (those on which
`calculate_metrics` returns), precision and recall lie in [0, 1];
precision is 0 (not NaN) whenever TP + FP = 0; recall is 0 whenever
TP + FN = 0; and the F1 score is 0 if and only if TP = 0. -/
theorem C3_metric_bounds (results : List TestResult) (m : EvaluationMetrics)
    (h : calculateMetrics results = .ok m) :
    0 ≤ m.precision ∧ m.precision ≤ 1 ∧
    0 ≤ m.recall ∧ m.recall ≤ 1 ∧
    (m.confusion_matrix.true_positives + m.confusion_matrix.false_positives = 0 →
      m.precision = 0) ∧
    (m.confusion_matrix.true_positives + m.confusion_matrix.false_negatives = 0 →
      m.recall = 0) ∧
    (m.f1_score = 0 ↔ m.confusion_matrix.true_positives = 0) := by
  unfold calculateMetrics at h
  split at h
  · exact absurd h (by simp)
  · cases h
    refine ⟨calculatePrecision_nonneg _, calculatePrecision_le_one _,
      calculateRecall_nonneg _, calculateRecall_le_one _, ?_, ?_,
      calculateF1_zero_iff _⟩
    · intro h0
      unfold calculatePrecision
      rw [if_pos h0]
    · intro h0
      unfold calculateRecall
      rw [if_pos h0]

/-- C3 witness: the metric bounds evaluated on the concrete one-element
result list `[resultTP]`. -/
theorem C3_metric_bounds_witness :
    0 ≤ metricsForSingleTP.precision ∧ metricsForSingleTP.precision ≤ 1 ∧
    0 ≤ metricsForSingleTP.recall ∧ metricsForSingleTP.recall ≤ 1 ∧
    (metricsForSingleTP.confusion_matrix.true_positives +
        metricsForSingleTP.confusion_matrix.false_positives = 0 →
      metricsForSingleTP.precision = 0) ∧
    (metricsForSingleTP.confusion_matrix.true_positives +
        metricsForSingleTP.confusion_matrix.false_negatives = 0 →
      metricsForSingleTP.recall = 0) ∧
    (metricsForSingleTP.f1_score = 0 ↔
      metricsForSingleTP.confusion_matrix.true_positives = 0) :=
  C3_metric_bounds [resultTP] metricsForSingleTP rfl

/-- C6 counterexample: in round 1 of 2, with 0 of 10 tests executed and
an analysis showing F1 = 0.95, no weak categories and a stable trend,
the claimed termination condition (its clause (c)) holds, yet
`should_terminate_early` returns continue, because its excellent-and-
stable check additionally requires a previous-round performance to be
supplied — and none is. -/
theorem C6_counterexample :
    claimedTerminationCondition 1 2 0 10 perfExcellentStable ∧
    (shouldTerminateEarly 1 2 0 10 perfExcellentStable none).1 = false := by
  constructor
  · right
    right
    left
    refine ⟨by norm_num [perfExcellentStable], rfl, rfl⟩
  · rfl

/-- C6 (amended): `should_terminate_early` returns stop exactly when
(a) the round number has reached the maximum rounds, or (b) the tests
executed have reached the test budget, or (c) a previous performance is
supplied AND overall F1 ≥ 0.90 with no weak categories and a stable
trend, or (d) the round number is at least 3 with no weak categories
and a stable trend. -/
theorem C6_termination_iff
    (round_number max_rounds total_tests_executed test_budget : ℕ)
    (performance : PerformanceAnalysis)
    (previous_performance : Option PerformanceAnalysis) :
    (shouldTerminateEarly round_number max_rounds total_tests_executed
        test_budget performance previous_performance).1 = true ↔
      (max_rounds ≤ round_number ∨
       test_budget ≤ total_tests_executed ∨
       (previous_performance.isSome = true ∧
         (9 : ℚ)/10 ≤ performance.overall_f1 ∧
         performance.performance_trend = "stable" ∧
         performance.weak_categories = []) ∨
       (3 ≤ round_number ∧
         performance.weak_categories = [] ∧
         performance.performance_trend = "stable")) := by
  unfold shouldTerminateEarly
  split_ifs with h1 h2 h3 h4 <;> simp_all

/-- The sum of a constant map is the length times the constant. -/
theorem sum_map_const_nat {α : Type} (l : List α) (c : ℕ) :
    (l.map (fun _ => c)).sum = l.length * c := by
  induction l with
  | nil => simp
  | cons x xs ih => simp [ih, Nat.succ_mul, Nat.add_comm]

/-- Shape of the plan returned by `_plan_exploitation` when weak
categories are present: it is the record the source builds, with the
local `focus_count`, `per_weak_category`, `other_categories` and
`per_other_category` values named. -/
theorem planExploitation_spec (cfg : PlannerConfig) (batch_size : ℕ)
    (weak_categories all_categories : List String)
    (hw : weak_categories ≠ []) :
    planExploitation cfg batch_size weak_categories all_categories =
      { phase := .EXPLOITATION
        allocations := exploitAllocations cfg batch_size weak_categories all_categories
        total_tests :=
          ((exploitAllocations cfg batch_size weak_categories all_categories).map
            (fun a => a.allocated_count)).sum
        rationale := "Exploitation: Focus tests on weak categories" } := by
  unfold planExploitation exploitAllocations exploitPerWeak exploitPerOther
    exploitOthers exploitFocusCount
  rw [if_neg hw]

/-- C7 counterexample: with the default configuration
(`focus_percentage = 0.6`, `min_category_samples = 5`), a batch of 10
with weak categories `["a", "b"]` out of `["a", "b", "c"]` allocates
5 + 5 = 10 tests to the weak categories (the claim demands
`⌊0.6 · 10⌋ = 6` in total) and plans 14 tests in all (the claim
demands exactly the batch size 10). -/
theorem C7_counterexample :
    (((planExploitation ({} : PlannerConfig) 10 ["a", "b"] ["a", "b", "c"]).allocations.filter
        (fun a => a.category ∈ (["a", "b"] : List String))).map
      (fun a => a.allocated_count)).sum = 10 ∧
    (planExploitation ({} : PlannerConfig) 10 ["a", "b"] ["a", "b", "c"]).total_tests = 14 := by
  have h6 : exploitFocusCount ({} : PlannerConfig) 10 = 6 := by
    unfold exploitFocusCount
    norm_num
    rfl
  rw [planExploitation_spec ({} : PlannerConfig) 10 ["a", "b"] ["a", "b", "c"] (by decide)]
  simp only [exploitAllocations, exploitPerWeak, exploitPerOther, exploitOthers, h6]
  decide

/-- C7 (amended): for every configuration, batch size and non-empty set
of weak categories, the exploitation-phase plan gives every weak
category `max(min_category_samples, ⌊focus_count / |weak|⌋)` tests
where `focus_count = ⌊batch · focus_percentage⌋`, gives every non-weak
category `max(1, ⌊(batch − focus_count) / |non-weak|⌋)` tests, and its
`total_tests` is the sum of those allocations — which need not equal
the requested batch size. -/
theorem C7_exploitation_allocation (cfg : PlannerConfig) (batch_size : ℕ)
    (weak_categories all_categories : List String)
    (hw : weak_categories ≠ []) :
    (planExploitation cfg batch_size weak_categories all_categories).phase =
      .EXPLOITATION ∧
    (∀ a ∈ (planExploitation cfg batch_size weak_categories all_categories).allocations,
      (a.category ∈ weak_categories ∧
        a.allocated_count = exploitPerWeak cfg batch_size weak_categories) ∨
      (a.category ∈ exploitOthers weak_categories all_categories ∧
        a.allocated_count = exploitPerOther cfg batch_size
          (exploitOthers weak_categories all_categories))) ∧
    (planExploitation cfg batch_size weak_categories all_categories).total_tests =
      weak_categories.length * exploitPerWeak cfg batch_size weak_categories +
      (exploitOthers weak_categories all_categories).length *
        exploitPerOther cfg batch_size (exploitOthers weak_categories all_categories) := by
  rw [planExploitation_spec cfg batch_size weak_categories all_categories hw]
  refine ⟨rfl, ?_, ?_⟩
  · intro a ha
    simp only [exploitAllocations, List.mem_append, List.mem_map] at ha
    rcases ha with ⟨c, hc, rfl⟩ | ha
    · exact Or.inl ⟨hc, rfl⟩
    · split at ha
      · simp at ha
      · simp only [List.mem_map] at ha
        obtain ⟨c, hc, rfl⟩ := ha
        exact Or.inr ⟨hc, rfl⟩
  · show ((exploitAllocations cfg batch_size weak_categories all_categories).map
      (fun a => a.allocated_count)).sum = _
    unfold exploitAllocations
    by_cases ho : exploitOthers weak_categories all_categories = []
    · rw [if_pos ho]
      simp only [ho, List.append_nil, List.map_map, List.length_nil, Nat.zero_mul,
        Nat.add_zero, Function.comp_def]
      exact sum_map_const_nat weak_categories
        (exploitPerWeak cfg batch_size weak_categories)
    · rw [if_neg ho]
      simp only [List.map_append, List.sum_append, List.map_map, Function.comp_def]
      rw [sum_map_const_nat weak_categories
        (exploitPerWeak cfg batch_size weak_categories)]
      rw [sum_map_const_nat (exploitOthers weak_categories all_categories)
        (exploitPerOther cfg batch_size (exploitOthers weak_categories all_categories))]

/-- C7 witness: the amended allocation law evaluated at the default
configuration, batch 20, weak categories `["a"]`, all categories
`["a", "b"]`. -/
theorem C7_exploitation_allocation_witness :
    (planExploitation ({} : PlannerConfig) 20 ["a"] ["a", "b"]).total_tests =
      (["a"] : List String).length * exploitPerWeak ({} : PlannerConfig) 20 ["a"] +
      (exploitOthers ["a"] ["a", "b"]).length *
        exploitPerOther ({} : PlannerConfig) 20 (exploitOthers ["a"] ["a", "b"]) :=
  (C7_exploitation_allocation ({} : PlannerConfig) 20 ["a"] ["a", "b"] (by decide)).2.2

/-- Value of `getD` on a mapped list, at an in-range index. -/
theorem getD_map_of_lt {α β : Type} (f : α → β) (l : List α) (i : ℕ)
    (d : α) (db : β) (h : i < l.length) :
    (l.map f).getD i db = f (l.getD i d) := by
  induction l generalizing i with
  | nil => simp at h
  | cons x xs ih =>
    cases i with
    | zero => rfl
    | succ n =>
      simp only [List.map_cons, List.getD_cons_succ]
      exact ih n (by simpa using h)

/-- C9: `_execute_tests` produces exactly one TestResult per sample, in
sample order — also when the purple-agent call raises — and a failed
call is recorded with `predicted = false`, confidence 0.0 and outcome
FALSE_NEGATIVE for a vulnerable sample, TRUE_NEGATIVE otherwise; every
recorded outcome agrees with `determineOutcome` on the recorded ground
truth and prediction. -/
theorem C9_execute_tests (callPurpleAgent : CodeSample → Option PurpleAgentResponse)
    (test_samples : List CodeSample) (i : ℕ) (dSample : CodeSample)
    (dResult : TestResult) (hi : i < test_samples.length) :
    (executeTests callPurpleAgent test_samples).length = test_samples.length ∧
    ((executeTests callPurpleAgent test_samples).getD i dResult).test_case_id =
      (test_samples.getD i dSample).id ∧
    ((executeTests callPurpleAgent test_samples).getD i dResult).ground_truth =
      (test_samples.getD i dSample).is_vulnerable ∧
    ((executeTests callPurpleAgent test_samples).getD i dResult).outcome =
      determineOutcome
        ((executeTests callPurpleAgent test_samples).getD i dResult).ground_truth
        ((executeTests callPurpleAgent test_samples).getD i dResult).predicted ∧
    (callPurpleAgent (test_samples.getD i dSample) = none →
      ((executeTests callPurpleAgent test_samples).getD i dResult).predicted = false ∧
      ((executeTests callPurpleAgent test_samples).getD i dResult).confidence = 0 ∧
      ((executeTests callPurpleAgent test_samples).getD i dResult).outcome =
        (if (test_samples.getD i dSample).is_vulnerable then .FALSE_NEGATIVE
         else .TRUE_NEGATIVE)) := by
  have hmap : (executeTests callPurpleAgent test_samples).getD i dResult =
      executeTestOne callPurpleAgent (test_samples.getD i dSample) :=
    getD_map_of_lt _ _ i dSample dResult hi
  refine ⟨by simp [executeTests], ?_, ?_, ?_, ?_⟩
  · rw [hmap]
    unfold executeTestOne
    cases callPurpleAgent (test_samples.getD i dSample) <;> rfl
  · rw [hmap]
    unfold executeTestOne
    cases callPurpleAgent (test_samples.getD i dSample) <;> rfl
  · rw [hmap]
    unfold executeTestOne
    cases callPurpleAgent (test_samples.getD i dSample) with
    | none =>
      cases hv : (test_samples.getD i dSample).is_vulnerable <;> simp [hv, determineOutcome]
    | some pr => rfl
  · intro hnone
    rw [hmap]
    unfold executeTestOne
    rw [hnone]
    exact ⟨rfl, rfl, rfl⟩

/-- C9 witness: two samples, the second of which makes the purple-agent
call raise; the executor still returns two results and records the
second as an undetected secure sample (TRUE_NEGATIVE, confidence 0). -/
theorem C9_execute_tests_witness :
    (executeTests callAnswersFirst [sampleVulnerable, sampleSecure]).length = 2 ∧
    ((executeTests callAnswersFirst [sampleVulnerable, sampleSecure]).getD 1 default).predicted
      = false ∧
    ((executeTests callAnswersFirst [sampleVulnerable, sampleSecure]).getD 1 default).confidence
      = 0 ∧
    ((executeTests callAnswersFirst [sampleVulnerable, sampleSecure]).getD 1 default).outcome
      = .TRUE_NEGATIVE := by
  have h := C9_execute_tests callAnswersFirst [sampleVulnerable, sampleSecure] 1
    default default (by decide)
  have hfail := h.2.2.2.2 (by rfl)
  refine ⟨by simpa using h.1, hfail.1, hfail.2.1, ?_⟩
  have h3 := hfail.2.2
  simpa [sampleSecure] using h3

/-- C2 counterexample: on a non-200 (here 500) HTTP response,
`_detect_async` raises inside its `try` block and the `except` handler
records `detected = false` — not the `detected = true` (treated as
blocked) that the claim demands for a non-200 status. -/
theorem C2_counterexample :
    (detectAsync (fun _ => none) "http://purple" promptAttack
      (.response 500 (some []))).detected = false := rfl

/-- C2 (amended): if the extracted response text parses as JSON, the
decision is `detected = not success` (with an absent `success` key read
as `False`); if the text — including the empty text produced when the
`parts` are missing — does not parse as JSON, `detected = true`
(treated as blocked); but a non-200 HTTP status or a transport failure
takes the exception path, which records `detected = false` with
confidence 0. -/
theorem C2_detect_decision (parseJson : String → Option ResultData)
    (endpoint : String) (attack : Attack) :
    (∀ err, (detectAsync parseJson endpoint attack (.failure err)).detected = false ∧
      (detectAsync parseJson endpoint attack (.failure err)).confidence = 0) ∧
    (∀ status parts, status ≠ 200 →
      (detectAsync parseJson endpoint attack (.response status parts)).detected = false ∧
      (detectAsync parseJson endpoint attack (.response status parts)).confidence = 0) ∧
    (∀ parts rd, parseJson (extractResponseText parts) = some rd →
      (detectAsync parseJson endpoint attack (.response 200 parts)).detected =
        ! rd.success.getD false) ∧
    (∀ parts, parseJson (extractResponseText parts) = none →
      (detectAsync parseJson endpoint attack (.response 200 parts)).detected = true) := by
  refine ⟨fun err => ⟨rfl, rfl⟩, ?_, ?_, ?_⟩
  · intro status parts hs
    simp only [detectAsync]
    rw [if_pos hs]
    exact ⟨rfl, rfl⟩
  · intro parts rd hp
    simp only [detectAsync]
    rw [if_neg (by simp), hp]
  · intro parts hp
    simp only [detectAsync]
    rw [if_neg (by simp), hp]

/-- C2 witness: the four detection branches evaluated on concrete
responses — a transport failure, a 500 status, a parseable body with
`success = true` (detected = false), and a missing-parts response whose
empty text does not parse (detected = true). -/
theorem C2_detect_decision_witness :
    (detectAsync parseOracle "http://purple" promptAttack (.failure "timeout")).detected
      = false ∧
    (detectAsync parseOracle "http://purple" promptAttack (.response 500 none)).detected
      = false ∧
    (detectAsync parseOracle "http://purple" promptAttack
      (.response 200 (some [{ text := some okBody }]))).detected = false ∧
    (detectAsync parseOracle "http://purple" promptAttack (.response 200 none)).detected
      = true := by
  have h := C2_detect_decision parseOracle "http://purple" promptAttack
  refine ⟨(h.1 "timeout").1, (h.2.1 500 none (by decide)).1, ?_, ?_⟩
  · have hc := h.2.2.1 (some [{ text := some okBody }])
      { success := some true, action_taken := some "executed" } (by rfl)
    simpa using hc
  · exact h.2.2.2 none (by rfl)

/-- C8 counterexample: in the JSON report for the concrete
`exampleDual`, the CVSS keys of the `vulnerability_breakdown` object are
`average_cvss` and `max_cvss` — not the claimed `avg_cvss` — and the
single vulnerability entry carries `cwe_id` and `cwe_name` keys rather
than the claimed `technique_id`. -/
theorem C8_counterexample :
    ((generateJsonReport exampleDual).lookupKey "vulnerability_breakdown").map Json.keyList =
      some ["critical", "high", "medium", "low", "average_cvss", "max_cvss"] ∧
    (["critical", "high", "medium", "low", "average_cvss", "max_cvss"] : List String) ≠
      ["critical", "high", "medium", "low", "avg_cvss", "max_cvss"] ∧
    ((generateJsonReport exampleDual).lookupKey "vulnerabilities").map
        (fun j => match j with | .arr items => items.map Json.keyList | _ => []) =
      some [["id", "cvss_score", "severity", "cwe_id", "cwe_name", "description",
        "remediation"]] ∧
    ¬ "technique_id" ∈ (["id", "cvss_score", "severity", "cwe_id", "cwe_name",
        "description", "remediation"] : List String) := by
  refine ⟨rfl, by decide, ?_, by decide⟩
  have hs : exampleAssessment.vulnerabilities.mergeSort
      (fun a b => decide (b.cvss_score ≤ a.cvss_score)) = [exampleVuln] := by
    simp [exampleAssessment]
  have hlook : (generateJsonReport exampleDual).lookupKey "vulnerabilities" =
      some (.arr ((exampleAssessment.vulnerabilities.mergeSort
        (fun a b => decide (b.cvss_score ≤ a.cvss_score))).map vulnerabilityJsonEntry)) := rfl
  rw [hlook, hs]
  rfl

/-- C8 (amended): for every dual evaluation result, the target JSON
report has a `vulnerability_breakdown` object with exactly the keys
critical, high, medium, low, average_cvss, max_cvss, and every entry of
its `vulnerabilities` array has exactly the keys id, cvss_score,
severity, cwe_id, cwe_name, description, remediation. -/
theorem C8_report_shape (dual_result : DualEvaluationResult) :
    ((generateJsonReport dual_result).lookupKey "vulnerability_breakdown").map Json.keyList =
      some ["critical", "high", "medium", "low", "average_cvss", "max_cvss"] ∧
    ((generateJsonReport dual_result).lookupKey "vulnerabilities").map
        (fun j => match j with
          | .arr items => items.all (fun it => decide (it.keyList =
              ["id", "cvss_score", "severity", "cwe_id", "cwe_name", "description",
               "remediation"]))
          | _ => false) = some true := by
  constructor
  · rfl
  · have hlook : (generateJsonReport dual_result).lookupKey "vulnerabilities" =
        some (.arr ((dual_result.purple_agent_assessment.vulnerabilities.mergeSort
          (fun a b => decide (b.cvss_score ≤ a.cvss_score))).map vulnerabilityJsonEntry)) := rfl
    rw [hlook]
    refine congrArg some (List.all_eq_true.mpr ?_)
    intro x hx
    simp only [List.mem_map] at hx
    obtain ⟨v, hv, rfl⟩ := hx
    simp [vulnerabilityJsonEntry, Json.keyList]

/-- C10: for every Python code sample that matches at least one of the
safe patterns, `BaselineSQLDetector.analyze` returns
`is_vulnerable = false` regardless of any matching vulnerable patterns
(the safe-pattern check runs first and returns, with confidence 0.8),
and for every input the returned confidence lies in [0.6, 0.95]. -/
theorem C10_analyze (eng : RegexEngine) (test_case_id code language : String)
    (category : Option String) :
    ((pyLower language = "python" ∧
        ∃ p ∈ PYTHON_SAFE_PATTERNS, eng.search p code = true) →
      (analyze eng test_case_id code language category).is_vulnerable = false ∧
      (analyze eng test_case_id code language category).confidence = 4/5) ∧
    (3/5 ≤ (analyze eng test_case_id code language category).confidence ∧
      (analyze eng test_case_id code language category).confidence ≤ 19/20) := by
  constructor
  · rintro ⟨hlang, p, hp, hsearch⟩
    have hcond : pyLower language = "python" ∧
        (PYTHON_SAFE_PATTERNS.any (fun q => eng.search q code)) = true :=
      ⟨hlang, List.any_eq_true.mpr ⟨p, hp, hsearch⟩⟩
    simp only [analyze]
    rw [if_pos hcond]
    exact ⟨rfl, rfl⟩
  · simp only [analyze]
    split_ifs with h1 h2
    · constructor <;> norm_num
    · constructor
      · refine le_min (by norm_num) ?_
        have hn : (0 : ℚ) ≤ ((patternsByLanguage (pyLower language)).flatMap
            (fun pds => (eng.finditer pds.1 code).map (fun _ => pds.2.2))).length *
            (1/20 : ℚ) := by positivity
        linarith
      · exact min_le_left _ _
    · constructor <;> norm_num

/-- C10 witness: under an engine that matches every pattern (so both
safe and vulnerable patterns fire), `analyze` on a Python sample
returns not-vulnerable with confidence 0.8, inside [0.6, 0.95]. -/
theorem C10_analyze_witness :
    (analyze engMatchAll "t1" "db.objects.filter(id=1)" "python" none).is_vulnerable
      = false ∧
    (analyze engMatchAll "t1" "db.objects.filter(id=1)" "python" none).confidence = 4/5 ∧
    3/5 ≤ (analyze engMatchAll "t1" "db.objects.filter(id=1)" "python" none).confidence := by
  have h := C10_analyze engMatchAll "t1" "db.objects.filter(id=1)" "python" none
  have hsafe := h.1 ⟨by decide, by decide⟩
  exact ⟨hsafe.1, hsafe.2, h.2.1⟩

end CyberSec
